import Mathlib

/-!
Shallow embedding of the financial-mutation consistency subsystem of the
finapp-api repository (FastAPI + Supabase personal-finance backend), covering:

* the idempotency service (`api/app/services/idempotency_service.py`),
* the contribution/payment compound posting services
  (`api/app/services/contributions_service.py`, `payments_service.py`),
* the recurrence roll-forward service (`api/app/services/recurrence_service.py`),
* the error classes (`api/app/core/errors.py`) and the contribution router
  (`api/app/routers/goals_router.py`).

Monetary amounts are exact decimals with two fractional places in the source
(`Decimal` over decimal strings); they are embedded as integer cents (`Int`),
which is an exact representation of that arithmetic.  The Supabase store is
embedded as an explicit record of tables; each `.insert`/`.update`/`.select`
issued by the services becomes an explicit state transition, and the services
are state-passing functions returning `Except` for raised exceptions.
Timestamps (`now()`, `occurred_at`) are embedded as an abstract tick `Nat`
plus a calendar date `PyDate` where the source stores a date.
-/

deriving instance DecidableEq for Except

namespace FinApp

/-! ### JSON values and the canonical serialization used by the fingerprint

`IdempotencyService._hash_request_body` runs
`json.dumps(body, sort_keys=True, separators=(',', ':'))` and SHA-256-hashes
the UTF-8 bytes of the result.  Request bodies are flat JSON objects here
(string keys, primitive values), embedded as association lists. -/

/-- Primitive JSON values appearing in request bodies. -/
inductive JValue where
  | str (s : String)
  | num (n : Int)
  | bool (b : Bool)
  | null
deriving DecidableEq, Repr

/-- A request body: a JSON object as an association list of key/value pairs
(the list order is the field order of the incoming dict). -/
abbrev RequestBody := List (String × JValue)

/-- Lowercase hexadecimal digit character, as produced by `hexdigest`. -/
def nibbleChar (n : Nat) : Char :=
  if n < 10 then Char.ofNat (48 + n) else Char.ofNat (87 + n)

/-- Four-digit lowercase hexadecimal rendering, as in a JSON `\uXXXX` escape. -/
def hex4 (n : Nat) : String :=
  String.mk [nibbleChar (n / 4096 % 16), nibbleChar (n / 256 % 16),
             nibbleChar (n / 16 % 16), nibbleChar (n % 16)]

/-- JSON `\uXXXX` escape of a character (surrogate pair above the BMP),
as produced by `json.dumps` with its default `ensure_ascii=True`. -/
def uEscapeChar (c : Char) : String :=
  let cp := c.toNat
  if cp < 65536 then "\\u" ++ hex4 cp
  else
    let v := cp - 65536
    "\\u" ++ hex4 (55296 + v / 1024) ++ "\\u" ++ hex4 (56320 + v % 1024)

/-- Escaping of one character inside a JSON string literal
(`json.dumps` default behaviour: two-character escapes for the common control
characters, `\uXXXX` for other control and all non-ASCII characters). -/
def escapeChar (c : Char) : String :=
  if c = '"' then "\\\""
  else if c = '\\' then "\\\\"
  else if c = '\n' then "\\n"
  else if c = '\r' then "\\r"
  else if c = '\t' then "\\t"
  else if c.toNat = 8 then "\\b"
  else if c.toNat = 12 then "\\f"
  else if c.toNat < 32 || c.toNat ≥ 127 then uEscapeChar c
  else String.singleton c

/-- A JSON string literal: quoted, with each character escaped. -/
def escapeString (s : String) : String :=
  "\"" ++ String.join (s.data.map escapeChar) ++ "\""

/-- Serialization of a primitive JSON value (`json.dumps` rendering). -/
def JValue.dump : JValue → String
  | .str s => escapeString s
  | .num n => toString n
  | .bool true => "true"
  | .bool false => "false"
  | .null => "null"

/-- One `"key":value` item of the serialized object (`separators=(',', ':')`,
so no whitespace after the colon). -/
def itemDump (p : String × JValue) : String :=
  escapeString p.1 ++ ":" ++ p.2.dump

/-- The `sort_keys=True` comparison: items ordered by key
(Python compares strings by code point, as Lean's `String` order does). -/
def keyLe (p q : String × JValue) : Prop := p.1 ≤ q.1

instance : DecidableRel keyLe := fun p q => inferInstanceAs (Decidable (p.1 ≤ q.1))

instance : IsTotal (String × JValue) keyLe := ⟨fun p q => le_total p.1 q.1⟩

instance : IsTrans (String × JValue) keyLe := ⟨fun _ _ _ h h' => le_trans h h'⟩

/-- Strict key order, used to show the sorted item list is unique when the
keys are distinct. -/
def keyLt (p q : String × JValue) : Prop := p.1 < q.1

instance : IsAntisymm (String × JValue) keyLt :=
  ⟨fun _ _ h h' => absurd (lt_trans h h') (lt_irrefl _)⟩

/-- Canonical JSON text of a request body:
`json.dumps(body, sort_keys=True, separators=(',', ':'))`. -/
def canonicalJson (body : RequestBody) : String :=
  "\x7b" ++ String.intercalate "," ((body.insertionSort keyLe).map itemDump) ++ "\x7d"

/-- UTF-8 bytes of a string (`.encode()` in the source), as natural numbers. -/
def strBytes (s : String) : List Nat :=
  s.toUTF8.toList.map (fun b => b.toNat)

/-! ### SHA-256 (`hashlib.sha256(...).hexdigest()`)

Word arithmetic is on `Nat` with explicit reduction modulo `2 ^ 32`. -/

/-- Truncation of a natural number to a 32-bit word. -/
def w32 (n : Nat) : Nat := n % 4294967296

/-- Right rotation of a 32-bit word. -/
def rotr (n x : Nat) : Nat := w32 ((x >>> n) ||| (x <<< (32 - n)))

/-- SHA-256 `Ch` function. -/
def shaCh (x y z : Nat) : Nat := w32 ((x &&& y) ^^^ ((x ^^^ 4294967295) &&& z))

/-- SHA-256 `Maj` function. -/
def shaMaj (x y z : Nat) : Nat := w32 ((x &&& y) ^^^ (x &&& z) ^^^ (y &&& z))

/-- SHA-256 big sigma 0. -/
def bigSigma0 (x : Nat) : Nat := w32 (rotr 2 x ^^^ rotr 13 x ^^^ rotr 22 x)

/-- SHA-256 big sigma 1. -/
def bigSigma1 (x : Nat) : Nat := w32 (rotr 6 x ^^^ rotr 11 x ^^^ rotr 25 x)

/-- SHA-256 small sigma 0. -/
def smallSigma0 (x : Nat) : Nat := w32 (rotr 7 x ^^^ rotr 18 x ^^^ (x >>> 3))

/-- SHA-256 small sigma 1. -/
def smallSigma1 (x : Nat) : Nat := w32 (rotr 17 x ^^^ rotr 19 x ^^^ (x >>> 10))

/-- The SHA-256 round constants. -/
def shaK : List Nat :=
  [1116352408, 1899447441, 3049323471, 3921009573,
   961987163, 1508970993, 2453635748, 2870763221,
   3624381080, 310598401, 607225278, 1426881987,
   1925078388, 2162078206, 2614888103, 3248222580,
   3835390401, 4022224774, 264347078, 604807628,
   770255983, 1249150122, 1555081692, 1996064986,
   2554220882, 2821834349, 2952996808, 3210313671,
   3336571891, 3584528711, 113926993, 338241895,
   666307205, 773529912, 1294757372, 1396182291,
   1695183700, 1986661051, 2177026350, 2456956037,
   2730485921, 2820302411, 3259730800, 3345764771,
   3516065817, 3600352804, 4094571909, 275423344,
   430227734, 506948616, 659060556, 883997877,
   958139571, 1322822218, 1537002063, 1747873779,
   1955562222, 2024104815, 2227730452, 2361852424,
   2428436474, 2756734187, 3204031479, 3329325298]

/-- The eight 32-bit words of a SHA-256 hash state. -/
structure Hash8 where
  h0 : Nat
  h1 : Nat
  h2 : Nat
  h3 : Nat
  h4 : Nat
  h5 : Nat
  h6 : Nat
  h7 : Nat
deriving DecidableEq, Repr

/-- The SHA-256 initial hash value. -/
def shaH0 : Hash8 :=
  ⟨1779033703, 3144134277, 1013904242,
   2773480762, 1359893119, 2600822924,
   528734635, 1541459225⟩

/-- The eight working registers of the compression loop. -/
structure Regs where
  a : Nat
  b : Nat
  c : Nat
  d : Nat
  e : Nat
  f : Nat
  g : Nat
  h : Nat
deriving DecidableEq, Repr

/-- One round of the SHA-256 compression loop, consuming one round constant
paired with one schedule word. -/
def shaRound (s : Regs) (kw : Nat × Nat) : Regs :=
  let t1 := w32 (s.h + bigSigma1 s.e + shaCh s.e s.f s.g + kw.1 + kw.2)
  let t2 := w32 (bigSigma0 s.a + shaMaj s.a s.b s.c)
  ⟨w32 (t1 + t2), s.a, s.b, s.c, w32 (s.d + t1), s.e, s.f, s.g⟩

/-- Big-endian packing of bytes into 32-bit words. -/
def bytesToWords : List Nat → List Nat
  | b0 :: b1 :: b2 :: b3 :: rest =>
      (b0 * 16777216 + b1 * 65536 + b2 * 256 + b3) :: bytesToWords rest
  | _ => []

/-- Message-schedule extension: appends the next schedule word `n` times. -/
def extendWords : List Nat → Nat → List Nat
  | ws, 0 => ws
  | ws, n + 1 =>
      let len := ws.length
      extendWords
        (ws ++ [w32 (smallSigma1 (ws.getD (len - 2) 0) + ws.getD (len - 7) 0 +
                     smallSigma0 (ws.getD (len - 15) 0) + ws.getD (len - 16) 0)]) n

/-- Addition of the compressed registers back into the hash state, word by
word modulo `2 ^ 32`. -/
def addState (hv : Hash8) (r : Regs) : Hash8 :=
  ⟨w32 (hv.h0 + r.a), w32 (hv.h1 + r.b), w32 (hv.h2 + r.c), w32 (hv.h3 + r.d),
   w32 (hv.h4 + r.e), w32 (hv.h5 + r.f), w32 (hv.h6 + r.g), w32 (hv.h7 + r.h)⟩

/-- SHA-256 compression of one 64-byte block into the running hash value. -/
def compressBlock (hv : Hash8) (block : List Nat) : Hash8 :=
  let ws := extendWords (bytesToWords block) 48
  let init : Regs := ⟨hv.h0, hv.h1, hv.h2, hv.h3, hv.h4, hv.h5, hv.h6, hv.h7⟩
  addState hv ((shaK.zip ws).foldl shaRound init)

/-- Big-endian 8-byte rendering of the message bit length. -/
def lengthBytes8 (n : Nat) : List Nat :=
  [n / 72057594037927936 % 256, n / 281474976710656 % 256,
   n / 1099511627776 % 256, n / 4294967296 % 256,
   n / 16777216 % 256, n / 65536 % 256, n / 256 % 256, n % 256]

/-- SHA-256 padding: a 0x80 byte, zeros up to 56 mod 64, then the bit length. -/
def padMessage (msg : List Nat) : List Nat :=
  let len := msg.length
  let padZeros := (119 - len % 64) % 64
  msg ++ [128] ++ List.replicate padZeros 0 ++ lengthBytes8 (len * 8)

/-- Splitting the padded message into 64-byte blocks. -/
def chunks64 : List Nat → List (List Nat)
  | [] => []
  | b :: rest => (b :: rest).take 64 :: chunks64 ((b :: rest).drop 64)
termination_by l => l.length
decreasing_by simp [List.length_drop]; omega

/-- The SHA-256 hash state of a byte sequence. -/
def sha256Words (msg : List Nat) : Hash8 :=
  (chunks64 (padMessage msg)).foldl compressBlock shaH0

/-- Eight-character lowercase hexadecimal rendering of a 32-bit word. -/
def word32Hex (w : Nat) : String :=
  String.mk [nibbleChar (w / 268435456 % 16), nibbleChar (w / 16777216 % 16),
             nibbleChar (w / 1048576 % 16), nibbleChar (w / 65536 % 16),
             nibbleChar (w / 4096 % 16), nibbleChar (w / 256 % 16),
             nibbleChar (w / 16 % 16), nibbleChar (w % 16)]

/-- The 64-character `hexdigest` of a byte sequence. -/
def sha256HexOfBytes (msg : List Nat) : String :=
  let hv := sha256Words msg
  word32Hex hv.h0 ++ word32Hex hv.h1 ++ word32Hex hv.h2 ++ word32Hex hv.h3 ++
  word32Hex hv.h4 ++ word32Hex hv.h5 ++ word32Hex hv.h6 ++ word32Hex hv.h7

/-- `IdempotencyService._hash_request_body`: canonical JSON (sorted keys, no
whitespace), UTF-8 encoded, SHA-256 hashed, rendered as a hex digest. -/
def hashRequestBody (body : RequestBody) : String :=
  sha256HexOfBytes (strBytes (canonicalJson body))

/-! ### Calendar dates (`datetime.date`) -/

/-- A Python `datetime.date` value (year, month, day). -/
structure PyDate where
  year : Nat
  month : Nat
  day : Nat
deriving DecidableEq, Repr

/-- Gregorian leap-year test, as in `calendar.isleap`. -/
def isLeapYear (y : Nat) : Bool :=
  y % 4 = 0 && (y % 100 != 0 || y % 400 = 0)

/-- Number of days in a month of a given year. -/
def daysInMonth (y m : Nat) : Nat :=
  if m = 2 then (if isLeapYear y then 29 else 28)
  else if m = 4 || m = 6 || m = 9 || m = 11 then 30
  else 31

/-- The calendar successor of a date. -/
def nextDay (d : PyDate) : PyDate :=
  if d.day < daysInMonth d.year d.month then ⟨d.year, d.month, d.day + 1⟩
  else if d.month < 12 then ⟨d.year, d.month + 1, 1⟩
  else ⟨d.year + 1, 1, 1⟩

/-- Calendar addition of days (`date + timedelta(days=n)`). -/
def addDays : PyDate → Nat → PyDate
  | d, 0 => d
  | d, n + 1 => addDays (nextDay d) n

/-! ### The error classes of `api/app/core/errors.py`, plus raw Python errors -/

/-- Exceptions the embedded services can raise.  The first three mirror the
`APIException` subclasses of `core/errors.py` (each carrying its detail
arguments); `genericExc` is a plain `raise Exception(msg)` inside a service;
`valueError` is a raw `ValueError` escaping from `datetime.date.replace`;
`typeError` is a raw `TypeError` (from `json.dumps` on a non-serializable
value, or from comparing a `str` against an `int`); `httpException` is a
FastAPI `HTTPException` raised by a router's catch-all handler. -/
inductive ApiError where
  | notFoundError (resource identifier : String)
  | validationError (detail : String)
  | idempotencyError (key : String)
  | genericExc (msg : String)
  | valueError (msg : String)
  | typeError (msg : String)
  | httpException (status : Nat) (detail : String)
deriving DecidableEq, Repr

/-- The machine-readable discriminators a caller of the API can observe for an
exception, per `core/errors.py`: the exception class, the Problem+JSON `type`
URI, the Problem+JSON `title`, and the HTTP status code.  The free-text
`detail` field is not part of the kind. -/
def ApiError.kind : ApiError → String × String × String × Nat
  | .notFoundError _ _ =>
      ("NotFoundError", "https://example.com/problems/not-found",
       "Recurso no encontrado", 404)
  | .validationError _ =>
      ("ValidationError", "https://example.com/problems/validation-error",
       "Error de validación", 422)
  | .idempotencyError _ =>
      ("IdempotencyError", "https://example.com/problems/conflict",
       "Conflicto", 409)
  | .genericExc _ => ("Exception", "", "", 500)
  | .valueError _ => ("ValueError", "", "", 500)
  | .typeError _ => ("TypeError", "", "", 500)
  | .httpException s _ =>
      ("HTTPException", "https://example.com/problems/http-error", "Error HTTP", s)

/-- Whether an error is one of the domain error kinds defined by
`core/errors.py` (as opposed to a raw Python exception or a transport-level
`HTTPException`). -/
def ApiError.isDomainKind : ApiError → Bool
  | .notFoundError _ _ => true
  | .validationError _ => true
  | .idempotencyError _ => true
  | .genericExc _ => false
  | .valueError _ => false
  | .typeError _ => false
  | .httpException _ _ => false

/-- Renders integer cents as the decimal string of the domain
(two fractional places), e.g. `60000 ↦ "600.00"`. -/
def centsToString (n : Int) : String :=
  let sign := if n < 0 then "-" else ""
  let a := n.natAbs
  let frac := a % 100
  sign ++ toString (a / 100) ++ "." ++
    String.mk [nibbleChar (frac / 10), nibbleChar (frac % 10)]

/-! ### The entity rows of the Ledger Store -/

/-- A row of `accounts` (only the columns the posting services read). -/
structure Account where
  id : Nat
  householdId : Nat
deriving DecidableEq, Repr

/-- A row of `transactions` (a LedgerEntry), as inserted by the posting
services: non-transfer kinds carry a single `account_id`. -/
structure LedgerEntry where
  id : Nat
  householdId : Nat
  kind : String
  amount : Int
  accountId : Nat
  occurredAt : Nat
  description : String
  createdAt : Nat
  updatedAt : Nat
deriving DecidableEq, Repr

/-- A row of `goal_contributions` (the Contribution link record). -/
structure Contribution where
  id : Nat
  goalId : Nat
  transactionId : Nat
  amount : Int
  createdAt : Nat
deriving DecidableEq, Repr

/-- A row of `obligation_payments` (the Payment link record). -/
structure Payment where
  id : Nat
  obligationId : Nat
  transactionId : Nat
  amount : Int
  createdAt : Nat
deriving DecidableEq, Repr

/-- A row of `goals`. -/
structure Goal where
  id : Nat
  householdId : Nat
  name : String
  targetAmount : Int
  currentAmount : Int
  targetDate : Option PyDate
  description : Option String
  priority : String
  isRecurring : Bool
  recurrencePattern : Option String
  status : String
  completedAt : Option PyDate
  createdAt : Nat
  updatedAt : Nat
deriving DecidableEq, Repr

/-- A row of `obligations`. -/
structure Obligation where
  id : Nat
  householdId : Nat
  name : String
  totalAmount : Int
  outstandingAmount : Int
  dueDate : Option PyDate
  description : Option String
  priority : String
  creditor : Option String
  isRecurring : Bool
  recurrencePattern : Option String
  status : String
  completedAt : Option PyDate
  createdAt : Nat
  updatedAt : Nat
deriving DecidableEq, Repr

/-- A row of `idempotency_requests`.  The cached `response_body` in the
contribution flow is the serialized Contribution row returned to the client. -/
structure IdempotencyRecord where
  key : String
  userId : Nat
  householdId : Nat
  requestHash : String
  responseStatus : Nat
  responseBody : Contribution
deriving DecidableEq, Repr

/-- The Supabase store state: one list per table, plus a fresh-id counter for
the server-generated row ids. -/
structure Store where
  goals : List Goal
  obligations : List Obligation
  accounts : List Account
  transactions : List LedgerEntry
  goalContributions : List Contribution
  obligationPayments : List Payment
  idempotencyRequests : List IdempotencyRecord
  nextId : Nat
deriving DecidableEq, Repr

/-! ### Failure injection

Each `.insert(...)`/`.update(...)` in a posting service is followed by
`if not result.data: raise Exception(...)`.  A failure injected at a step
means that step's own write does not persist and the corresponding exception
is raised; the preceding steps' writes remain in the store, exactly as with
sequential writes to a remote store and no transaction. -/

/-- Which step of a compound posting is forced to fail. -/
structure FailureSpec where
  failLedgerInsert : Bool
  failLinkInsert : Bool
  failParentUpdate : Bool
deriving DecidableEq, Repr

/-- No injected failure: every store operation succeeds. -/
def noFail : FailureSpec := ⟨false, false, false⟩

/-- Injected failure of the link-record insert (step 2), i.e. after the
LedgerEntry insert and before the parent-total update. -/
def failLink : FailureSpec := ⟨false, true, false⟩

/-! ### `ContributionsService.create_contribution` -/

/-- The dictionary returned by `create_contribution`: the new link row, the
new LedgerEntry, the goal row as returned by the step-3 update, and the
auto-close flag. -/
structure ContributionResult where
  contribution : Contribution
  transaction : LedgerEntry
  goal : Goal
  autoClosed : Bool
deriving DecidableEq, Repr

/-- `ContributionsService.create_contribution`: precondition checks (goal
exists, goal active, account in household, positive amount), then the
four-step effect issued as sequential writes — LedgerEntry insert,
`goal_contributions` insert, `current_amount` update, conditional auto-close
update.  Returns the raised exception or the result dict, together with the
store as left behind (writes already issued persist even when a later step
fails; the `try` block only logs and re-raises). -/
def createContribution (st : Store) (householdId goalId : Nat) (amount : Int)
    (sourceAccountId : Nat) (occurredAt : Option Nat) (description : Option String)
    (now : Nat) (nowDate : PyDate) (fail : FailureSpec) :
    Except ApiError ContributionResult × Store :=
  match st.goals.find? (fun g => g.id == goalId) with
  | none => (.error (.notFoundError "Meta" (toString goalId)), st)
  | some goal =>
    if goal.status != "active" then
      (.error (.validationError "La meta debe estar activa para recibir aportes"), st)
    else
      match st.accounts.find?
          (fun a => a.id == sourceAccountId && a.householdId == householdId) with
      | none => (.error (.notFoundError "Cuenta" (toString sourceAccountId)), st)
      | some _ =>
        if amount ≤ 0 then
          (.error (.validationError "El monto del aporte debe ser positivo"), st)
        else if fail.failLedgerInsert then
          (.error (.genericExc "Error creando transacción"), st)
        else
          let txn : LedgerEntry :=
            { id := st.nextId, householdId := householdId, kind := "income",
              amount := amount, accountId := sourceAccountId,
              occurredAt := occurredAt.getD now,
              description := description.getD ("Aporte a meta: " ++ goal.name),
              createdAt := now, updatedAt := now }
          let st1 : Store :=
            { st with transactions := st.transactions ++ [txn], nextId := st.nextId + 1 }
          if fail.failLinkInsert then
            (.error (.genericExc "Error creando vinculación de aporte"), st1)
          else
            let contrib : Contribution :=
              { id := st1.nextId, goalId := goalId, transactionId := txn.id,
                amount := amount, createdAt := now }
            let st2 : Store :=
              { st1 with goalContributions := st1.goalContributions ++ [contrib],
                         nextId := st1.nextId + 1 }
            if fail.failParentUpdate then
              (.error (.genericExc "Error actualizando meta"), st2)
            else
              let newAmount := goal.currentAmount + amount
              let st3 : Store :=
                { st2 with goals := st2.goals.map (fun g =>
                    if g.id == goalId then
                      { g with currentAmount := newAmount, updatedAt := now }
                    else g) }
              match st3.goals.find? (fun g => g.id == goalId) with
              | none => (.error (.genericExc "Error actualizando meta"), st3)
              | some updatedGoal =>
                let st4 : Store :=
                  if newAmount ≥ goal.targetAmount then
                    { st3 with goals := st3.goals.map (fun g =>
                        if g.id == goalId then
                          { g with status := "completed", completedAt := some nowDate,
                                   updatedAt := now }
                        else g) }
                  else st3
                (.ok { contribution := contrib, transaction := txn, goal := updatedGoal,
                       autoClosed := newAmount ≥ goal.targetAmount }, st4)

/-! ### `PaymentsService.create_payment` -/

/-- The dictionary returned by `create_payment`. -/
structure PaymentResult where
  payment : Payment
  transaction : LedgerEntry
  obligation : Obligation
  autoClosed : Bool
deriving DecidableEq, Repr

/-- `PaymentsService.create_payment`: the mirror of contribution posting —
`kind = "expense"`, the additional outstanding-balance precondition, the
`outstanding_amount` decrement and the auto-close when the new outstanding
is not positive. -/
def createPayment (st : Store) (householdId obligationId : Nat) (amount : Int)
    (fromAccountId : Nat) (occurredAt : Option Nat) (description : Option String)
    (now : Nat) (nowDate : PyDate) (fail : FailureSpec) :
    Except ApiError PaymentResult × Store :=
  match st.obligations.find? (fun o => o.id == obligationId) with
  | none => (.error (.notFoundError "Obligación" (toString obligationId)), st)
  | some obligation =>
    if obligation.status != "active" then
      (.error (.validationError "La obligación debe estar activa para recibir pagos"), st)
    else
      match st.accounts.find?
          (fun a => a.id == fromAccountId && a.householdId == householdId) with
      | none => (.error (.notFoundError "Cuenta" (toString fromAccountId)), st)
      | some _ =>
        if amount ≤ 0 then
          (.error (.validationError "El monto del pago debe ser positivo"), st)
        else if amount > obligation.outstandingAmount then
          (.error (.validationError
            ("El monto del pago (" ++ centsToString amount ++
             ") no puede exceder el monto pendiente (" ++
             centsToString obligation.outstandingAmount ++ ")")), st)
        else if fail.failLedgerInsert then
          (.error (.genericExc "Error creando transacción"), st)
        else
          let txn : LedgerEntry :=
            { id := st.nextId, householdId := householdId, kind := "expense",
              amount := amount, accountId := fromAccountId,
              occurredAt := occurredAt.getD now,
              description := description.getD ("Pago de obligación: " ++ obligation.name),
              createdAt := now, updatedAt := now }
          let st1 : Store :=
            { st with transactions := st.transactions ++ [txn], nextId := st.nextId + 1 }
          if fail.failLinkInsert then
            (.error (.genericExc "Error creando vinculación de pago"), st1)
          else
            let pay : Payment :=
              { id := st1.nextId, obligationId := obligationId, transactionId := txn.id,
                amount := amount, createdAt := now }
            let st2 : Store :=
              { st1 with obligationPayments := st1.obligationPayments ++ [pay],
                         nextId := st1.nextId + 1 }
            if fail.failParentUpdate then
              (.error (.genericExc "Error actualizando obligación"), st2)
            else
              let newOutstanding := obligation.outstandingAmount - amount
              let st3 : Store :=
                { st2 with obligations := st2.obligations.map (fun o =>
                    if o.id == obligationId then
                      { o with outstandingAmount := newOutstanding, updatedAt := now }
                    else o) }
              match st3.obligations.find? (fun o => o.id == obligationId) with
              | none => (.error (.genericExc "Error actualizando obligación"), st3)
              | some updatedObligation =>
                let st4 : Store :=
                  if newOutstanding ≤ 0 then
                    { st3 with obligations := st3.obligations.map (fun o =>
                        if o.id == obligationId then
                          { o with status := "completed", completedAt := some nowDate,
                                   updatedAt := now }
                        else o) }
                  else st3
                (.ok { payment := pay, transaction := txn, obligation := updatedObligation,
                       autoClosed := newOutstanding ≤ 0 }, st4)

/-! ### `IdempotencyService` -/

/-- `IdempotencyService.check_idempotency`: looks up the record stored under
`(key, user_id, household_id)`; no record means a fresh request, a record with
a differing fingerprint raises `IdempotencyError(key)`, a matching fingerprint
replays the cached response. -/
def checkIdempotency (st : Store) (key : String) (userId householdId : Nat)
    (requestBody : RequestBody) : Except ApiError (Bool × Option Contribution) :=
  let requestHash := hashRequestBody requestBody
  match st.idempotencyRequests.find?
      (fun r => r.key == key && r.userId == userId && r.householdId == householdId) with
  | none => .ok (false, none)
  | some existing =>
    if existing.requestHash != requestHash then .error (.idempotencyError key)
    else .ok (true, some existing.responseBody)

/-- `IdempotencyService.store_idempotency_result`: inserts one row recording
the fingerprint and the cached response. -/
def storeIdempotencyResult (st : Store) (key : String) (userId householdId : Nat)
    (requestBody : RequestBody) (responseStatus : Nat) (responseBody : Contribution) :
    Store :=
  { st with idempotencyRequests := st.idempotencyRequests ++
      [{ key := key, userId := userId, householdId := householdId,
         requestHash := hashRequestBody requestBody,
         responseStatus := responseStatus, responseBody := responseBody }] }

/-! ### The guarded contribution endpoint (`goals_router.create_contribution`)

The router operates on `request.dict()` of `GoalContributionCreate`, a
pydantic-v1 model whose field values are Python objects: `amount` is a
regex-validated `str`, `source_account_id` is a `UUID` object, `occurred_at`
an optional `datetime`, `description` an optional `str`.  `UUID` and
`datetime` are not JSON serializable, so `json.dumps` inside
`_hash_request_body` raises `TypeError` on this dict; and the router passes
the `str`-typed `request.amount` straight to the posting service, whose
`amount <= 0` comparison raises `TypeError` as well. -/

/-- A Python value as it appears in `request.dict()`: a string, a `UUID`
object, a `datetime` object, or `None`. -/
inductive PyValue where
  | str (s : String)
  | uuid (n : Nat)
  | datetime (t : Nat)
  | pynone
deriving DecidableEq, Repr

/-- A Python dict with string keys, as handed to `_hash_request_body`. -/
abbrev PyDict := List (String × PyValue)

/-- How `json.dumps` treats one value: strings and `None` serialize, `UUID`
and `datetime` objects raise `TypeError`. -/
def PyValue.toJson : PyValue → Except ApiError JValue
  | .str s => .ok (.str s)
  | .pynone => .ok .null
  | .uuid _ => .error (.typeError "Object of type UUID is not JSON serializable")
  | .datetime _ => .error (.typeError "Object of type datetime is not JSON serializable")

/-- `json.dumps` over a dict: every value must serialize, else the dict-level
dump raises the value's `TypeError`.  (The source walks values in sorted-key
order, which can only change which unserializable value raises first — never
whether the dump raises; the values are converted here in dict order.) -/
def pyBodyToJson : PyDict → Except ApiError RequestBody
  | [] => .ok []
  | (k, v) :: rest =>
    match v.toJson with
    | .error e => .error e
    | .ok jv =>
      match pyBodyToJson rest with
      | .error e => .error e
      | .ok jrest => .ok ((k, jv) :: jrest)

/-- `IdempotencyService.check_idempotency` as called with an arbitrary Python
dict: `_hash_request_body(request_body)` runs first (line 40, outside the
`try` block), so a non-serializable body raises `TypeError` before any store
lookup; a serializable body proceeds as `checkIdempotency`. -/
def checkIdempotencyPy (st : Store) (key : String) (userId householdId : Nat)
    (requestBody : PyDict) : Except ApiError (Bool × Option Contribution) :=
  match pyBodyToJson requestBody with
  | .error e => .error e
  | .ok jb => checkIdempotency st key userId householdId jb

/-- The validated payload of `POST .../contributions`
(`GoalContributionCreate`): `amount` is a `str` constrained by the regex
`^\d+(\.\d{1,2})?$`, `source_account_id` a `UUID`. -/
structure ContribRequest where
  amount : String
  sourceAccountId : Nat
  occurredAt : Option Nat
  description : Option String
deriving DecidableEq, Repr

/-- `request.dict()`: the pydantic field values as Python objects — the
`UUID` under `source_account_id` (and the `datetime` under `occurred_at`,
when present) is not JSON serializable. -/
def ContribRequest.dict (r : ContribRequest) : PyDict :=
  [("amount", .str r.amount),
   ("source_account_id", .uuid r.sourceAccountId),
   ("occurred_at", match r.occurredAt with | some t => .datetime t | none => .pynone),
   ("description", match r.description with | some s => .str s | none => .pynone)]

/-- `ContributionsService.create_contribution` as the router invokes it,
passing the `str`-typed `request.amount` where the service's signature says
`Decimal`: the goal, status and account preconditions evaluate first, then
the `amount <= 0` check compares a `str` against an `int` and raises
`TypeError`. -/
def createContributionStrAmount (st : Store) (householdId goalId : Nat)
    (_amount : String) (sourceAccountId : Nat) :
    Except ApiError ContributionResult × Store :=
  match st.goals.find? (fun g => g.id == goalId) with
  | none => (.error (.notFoundError "Meta" (toString goalId)), st)
  | some goal =>
    if goal.status != "active" then
      (.error (.validationError "La meta debe estar activa para recibir aportes"), st)
    else
      match st.accounts.find?
          (fun a => a.id == sourceAccountId && a.householdId == householdId) with
      | none => (.error (.notFoundError "Cuenta" (toString sourceAccountId)), st)
      | some _ =>
        (.error (.typeError
          "\x27<=\x27 not supported between instances of \x27str\x27 and \x27int\x27"), st)

/-- `goals_router.create_contribution`: the idempotency check on
`request.dict()`, then on a fresh request the posting followed by recording
the response.  The handler's `except IdempotencyError: raise` passes
idempotency conflicts through; its `except Exception` turns every other
exception — including the `TypeError` from hashing the `UUID`-bearing dict
and the `TypeError` from the `str` amount — into
`HTTPException(500, "Error creando aporte")`. -/
def routerCreateContribution (st : Store) (key : String)
    (userId householdId goalId : Nat) (req : ContribRequest)
    (_now : Nat) (_nowDate : PyDate) (_fail : FailureSpec) :
    Except ApiError Contribution × Store :=
  match checkIdempotencyPy st key userId householdId req.dict with
  | .error (.idempotencyError k) => (.error (.idempotencyError k), st)
  | .error _ => (.error (.httpException 500 "Error creando aporte"), st)
  | .ok (true, some cached) => (.ok cached, st)
  | .ok (true, none) => (.error (.httpException 500 "Error creando aporte"), st)
  | .ok (false, _) =>
    match createContributionStrAmount st householdId goalId req.amount
        req.sourceAccountId with
    | (.error (.idempotencyError k), st') => (.error (.idempotencyError k), st')
    | (.error _, st') => (.error (.httpException 500 "Error creando aporte"), st')
    | (.ok r, st') =>
      match pyBodyToJson req.dict with
      | .error _ => (.error (.httpException 500 "Error creando aporte"), st')
      | .ok jb =>
        (.ok r.contribution,
         storeIdempotencyResult st' key userId householdId jb 201 r.contribution)

/-! ### `RecurrenceService` -/

/-- Python's `datetime.date.replace`: builds the requested date and raises
`ValueError` when the month or the day is out of range (no day-of-month
clamping).  The year range check (1..9999) is omitted. -/
def dateReplace (y m day : Nat) : Except ApiError PyDate :=
  if 1 ≤ m ∧ m ≤ 12 then
    if 1 ≤ day ∧ day ≤ daysInMonth y m then .ok ⟨y, m, day⟩
    else .error (.valueError "day is out of range for month")
  else .error (.valueError "month must be in 1..12")

/-- `RecurrenceService._calculate_next_date`: the base date is
`completed_at.date()` when present, else `current_date`; then daily/weekly/
quarterly add a fixed number of days, monthly and yearly use `date.replace`,
and an unsupported pattern raises `ValidationError`. -/
def calculateNextDate (currentDate : PyDate) (pattern : String)
    (completedAt : Option PyDate) : Except ApiError PyDate :=
  let baseDate := completedAt.getD currentDate
  if pattern == "daily" then .ok (addDays baseDate 1)
  else if pattern == "weekly" then .ok (addDays baseDate 7)
  else if pattern == "monthly" then
    if baseDate.month == 12 then dateReplace (baseDate.year + 1) 1 baseDate.day
    else dateReplace baseDate.year (baseDate.month + 1) baseDate.day
  else if pattern == "quarterly" then .ok (addDays baseDate 90)
  else if pattern == "yearly" then dateReplace (baseDate.year + 1) baseDate.month baseDate.day
  else .error (.validationError ("Patrón de recurrencia no válido: " ++ pattern))

/-- The dictionary returned by `rollover_goal`. -/
structure RolloverGoalResult where
  newGoal : Goal
  nextTargetDate : PyDate
  pattern : String
deriving DecidableEq, Repr

/-- `RecurrenceService.rollover_goal`: precondition checks (found, recurring,
completed, has a pattern), next-date computation, then a single insert of the
successor goal with descriptive fields copied, `current_amount` reset to 0,
status active and the computed target date.  The source row is never
written. -/
def rolloverGoal (st : Store) (goalId : Nat) (today : PyDate) (now : Nat) :
    Except ApiError RolloverGoalResult × Store :=
  match st.goals.find? (fun g => g.id == goalId) with
  | none => (.error (.validationError "Meta no encontrada"), st)
  | some goal =>
    if !goal.isRecurring then
      (.error (.validationError "La meta no es recurrente"), st)
    else if goal.status != "completed" then
      (.error (.validationError "La meta debe estar completada para hacer rollover"), st)
    else
      match goal.recurrencePattern with
      | none =>
        (.error (.validationError "La meta recurrente debe tener un patrón de recurrencia"), st)
      | some pat =>
        match calculateNextDate (goal.targetDate.getD today) pat goal.completedAt with
        | .error e => (.error e, st)
        | .ok nextTargetDate =>
          let newGoal : Goal :=
            { id := st.nextId, householdId := goal.householdId, name := goal.name,
              targetAmount := goal.targetAmount, currentAmount := 0,
              targetDate := some nextTargetDate, description := goal.description,
              priority := goal.priority, isRecurring := true,
              recurrencePattern := goal.recurrencePattern, status := "active",
              completedAt := none, createdAt := now, updatedAt := now }
          (.ok { newGoal := newGoal, nextTargetDate := nextTargetDate, pattern := pat },
           { st with goals := st.goals ++ [newGoal], nextId := st.nextId + 1 })

/-- The dictionary returned by `renew_obligation`. -/
structure RenewObligationResult where
  newObligation : Obligation
  nextDueDate : PyDate
  pattern : String
deriving DecidableEq, Repr

/-- `RecurrenceService.renew_obligation`: the obligation mirror of
`rollover_goal`; the successor's `outstanding_amount` is reset to the full
`total_amount`. -/
def renewObligation (st : Store) (obligationId : Nat) (today : PyDate) (now : Nat) :
    Except ApiError RenewObligationResult × Store :=
  match st.obligations.find? (fun o => o.id == obligationId) with
  | none => (.error (.validationError "Obligación no encontrada"), st)
  | some obligation =>
    if !obligation.isRecurring then
      (.error (.validationError "La obligación no es recurrente"), st)
    else if obligation.status != "completed" then
      (.error (.validationError "La obligación debe estar completada para renovar"), st)
    else
      match obligation.recurrencePattern with
      | none =>
        (.error (.validationError
          "La obligación recurrente debe tener un patrón de recurrencia"), st)
      | some pat =>
        match calculateNextDate (obligation.dueDate.getD today) pat
            obligation.completedAt with
        | .error e => (.error e, st)
        | .ok nextDueDate =>
          let newObligation : Obligation :=
            { id := st.nextId, householdId := obligation.householdId,
              name := obligation.name, totalAmount := obligation.totalAmount,
              outstandingAmount := obligation.totalAmount,
              dueDate := some nextDueDate, description := obligation.description,
              priority := obligation.priority, creditor := obligation.creditor,
              isRecurring := true, recurrencePattern := obligation.recurrencePattern,
              status := "active", completedAt := none, createdAt := now, updatedAt := now }
          (.ok { newObligation := newObligation, nextDueDate := nextDueDate,
                 pattern := pat },
           { st with obligations := st.obligations ++ [newObligation],
                     nextId := st.nextId + 1 })

/-! ### Concrete fixtures used to evaluate the model at specific inputs -/

/-- Scenario A goal: target 1000.00, current 900.00, active. -/
def goalA : Goal :=
  { id := 1, householdId := 1, name := "Vacaciones", targetAmount := 100000,
    currentAmount := 90000, targetDate := none, description := none,
    priority := "medium", isRecurring := false, recurrencePattern := none,
    status := "active", completedAt := none, createdAt := 0, updatedAt := 0 }

/-- An account of household 1. -/
def accountA : Account := { id := 2, householdId := 1 }

/-- A reference date used as the current clock. -/
def dateA : PyDate := ⟨2024, 3, 15⟩

/-- Store holding scenario A's goal and account. -/
def storeA : Store :=
  { goals := [goalA], obligations := [], accounts := [accountA], transactions := [],
    goalContributions := [], obligationPayments := [], idempotencyRequests := [],
    nextId := 10 }

/-- Scenario B obligation: total 500.00, outstanding 500.00, active. -/
def obligationB : Obligation :=
  { id := 3, householdId := 1, name := "Préstamo", totalAmount := 50000,
    outstandingAmount := 50000, dueDate := none, description := none,
    priority := "medium", creditor := none, isRecurring := false,
    recurrencePattern := none, status := "active", completedAt := none,
    createdAt := 0, updatedAt := 0 }

/-- Store holding scenario B's obligation and an account. -/
def storeB : Store :=
  { goals := [], obligations := [obligationB], accounts := [accountA],
    transactions := [], goalContributions := [], obligationPayments := [],
    idempotencyRequests := [], nextId := 20 }

/-- A goal that is not active (already completed). -/
def goalInactive : Goal :=
  { goalA with id := 5, status := "completed", completedAt := some ⟨2024, 2, 1⟩ }

/-- Store holding the inactive goal and an account. -/
def storeInactive : Store :=
  { storeA with goals := [goalInactive] }

/-- A cached contribution response. -/
def contribC : Contribution :=
  { id := 99, goalId := 1, transactionId := 98, amount := 10000, createdAt := 1 }

/-- An idempotency record whose stored fingerprint is not the fingerprint of
any request body (fingerprints are 64 hex characters). -/
def recC : IdempotencyRecord :=
  { key := "kC", userId := 7, householdId := 1, requestHash := "different-hash",
    responseStatus := 201, responseBody := contribC }

/-- Store holding the conflicting idempotency record. -/
def storeC : Store :=
  { storeA with idempotencyRequests := [recC] }

/-- A request body replayed against the stored record. -/
def bodyC : RequestBody := [("amount", .str "100.00")]

/-- The contribution request payload used by the router-level runs. -/
def reqA : ContribRequest :=
  { amount := "100.00", sourceAccountId := 2, occurredAt := none, description := none }

/-- A completed recurring goal (monthly pattern). -/
def goalR : Goal :=
  { id := 8, householdId := 1, name := "Ahorro", targetAmount := 120000,
    currentAmount := 120000, targetDate := some ⟨2024, 1, 15⟩,
    description := some "ahorro mensual", priority := "high", isRecurring := true,
    recurrencePattern := some "monthly", status := "completed",
    completedAt := some ⟨2024, 1, 20⟩, createdAt := 0, updatedAt := 0 }

/-- A completed recurring obligation (weekly pattern). -/
def obligationR : Obligation :=
  { id := 9, householdId := 1, name := "Renta", totalAmount := 80000,
    outstandingAmount := 0, dueDate := some ⟨2024, 1, 10⟩,
    description := some "renta semanal", priority := "high",
    creditor := some "Banco", isRecurring := true,
    recurrencePattern := some "weekly", status := "completed",
    completedAt := some ⟨2024, 1, 12⟩, createdAt := 0, updatedAt := 0 }

/-- Store holding the completed recurring items. -/
def storeR : Store :=
  { goals := [goalR], obligations := [obligationR], accounts := [accountA],
    transactions := [], goalContributions := [], obligationPayments := [],
    idempotencyRequests := [], nextId := 30 }

/-- All eight hash-state words fit in 32 bits. -/
def Hash8.Bounded (hv : Hash8) : Prop :=
  hv.h0 < 4294967296 ∧ hv.h1 < 4294967296 ∧ hv.h2 < 4294967296 ∧
  hv.h3 < 4294967296 ∧ hv.h4 < 4294967296 ∧ hv.h5 < 4294967296 ∧
  hv.h6 < 4294967296 ∧ hv.h7 < 4294967296

/-- A family of pairwise-distinct request bodies: one key `"k"`, whose value
is a string of `n` letters. -/
def bodyOfIndex (n : Nat) : RequestBody :=
  [("k", JValue.str (String.mk (List.replicate n 'a')))]

/-! ## Theorems -/

/-- An `update ... eq id` over a table commutes with the first-match lookup:
when the update does not change the matched column, finding in the updated
table returns the updated first match. -/
theorem find?_map_if (α : Type) (p : α → Bool) (f : α → α)
    (hpf : ∀ a, p (f a) = p a) :
    ∀ l : List α, (l.map (fun a => if p a then f a else a)).find? p
      = (l.find? p).map (fun a => if p a then f a else a) := by
  intro l
  induction l with
  | nil => rfl
  | cons a l ih =>
    by_cases h : p a
    · simp [List.find?_cons, h, hpf]
    · have h' : p a = false := by simpa using h
      simp [List.find?_cons, h', hpf, ih]

/-- Claim C10: a monthly roll-forward from a day that does not exist in the
following month (January 31) and a yearly roll-forward from February 29 both
raise a raw `ValueError` out of `date.replace` — not a date, and not one of
the domain error kinds; no clamping happens. -/
theorem next_date_unclamped_day_raises_raw_value_error :
    calculateNextDate ⟨2024, 1, 31⟩ "monthly" none =
      .error (.valueError "day is out of range for month") ∧
    calculateNextDate ⟨2024, 2, 29⟩ "yearly" none =
      .error (.valueError "day is out of range for month") ∧
    (ApiError.valueError "day is out of range for month").isDomainKind = false := by
  decide

/-- Claim C1: the four-step posting is not all-or-nothing.  Injecting a
failure at step 2 (the link-record insert), after the LedgerEntry insert of
step 1, leaves a persisted LedgerEntry with no link row and no parent-total
update, for contribution posting and for payment posting alike — the code
raises and re-raises but never rolls back the step-1 write. -/
theorem posting_partial_write_persists_on_midsequence_failure :
    (createContribution storeA 1 1 10000 2 none none 5 dateA failLink).1 =
      .error (.genericExc "Error creando vinculación de aporte") ∧
    ((createContribution storeA 1 1 10000 2 none none 5 dateA failLink).2).transactions.length = 1 ∧
    ((createContribution storeA 1 1 10000 2 none none 5 dateA failLink).2).goalContributions = [] ∧
    ((createContribution storeA 1 1 10000 2 none none 5 dateA failLink).2).goals = storeA.goals ∧
    (createPayment storeB 1 3 20000 2 none none 5 dateA failLink).1 =
      .error (.genericExc "Error creando vinculación de pago") ∧
    ((createPayment storeB 1 3 20000 2 none none 5 dateA failLink).2).transactions.length = 1 ∧
    ((createPayment storeB 1 3 20000 2 none none 5 dateA failLink).2).obligationPayments = [] ∧
    ((createPayment storeB 1 3 20000 2 none none 5 dateA failLink).2).obligations = storeB.obligations := by
  decide

/-- Claim C2 (counterexample): in concrete scenario A (target 1000.00,
current 900.00, contribution 100.00) the goal object returned to the caller
has `current_amount` 1000.00 but status still `"active"`, not `"completed"`:
the returned row is captured by the step-3 update, before the separate
auto-close update whose result is discarded. -/
theorem contribution_returned_goal_keeps_preclose_status :
    (createContribution storeA 1 1 10000 2 none none 5 dateA noFail).1.map
      (fun r => (r.goal.currentAmount, r.goal.status)) = .ok (100000, "active") ∧
    ("active" : String) ≠ "completed" := by
  decide

/-- Claim C2 (amended): posting a positive contribution to an active goal
adds the amount to the stored goal's `current_amount`; iff the new amount
reaches the `target_amount` captured before the update (exact `>=`), the
stored goal becomes `completed` with `completed_at` stamped; exactly one new
income LedgerEntry and one Contribution link row are created — but the goal
object returned to the caller carries the updated `current_amount` with the
pre-auto-close status (`"active"`), because the auto-close update's result is
discarded. -/
theorem contribution_posting_updates_goal_and_autocloses
    (st : Store) (householdId goalId : Nat) (amount : Int) (sourceAccountId : Nat)
    (occurredAt : Option Nat) (description : Option String) (now : Nat)
    (nowDate : PyDate) (goal : Goal) (acct : Account)
    (hg : st.goals.find? (fun g => g.id == goalId) = some goal)
    (hactive : goal.status = "active")
    (hacct : st.accounts.find?
      (fun a => a.id == sourceAccountId && a.householdId == householdId) = some acct)
    (hpos : 0 < amount) :
    ∃ r g',
      (createContribution st householdId goalId amount sourceAccountId occurredAt
        description now nowDate noFail).1 = .ok r ∧
      r.goal = { goal with currentAmount := goal.currentAmount + amount,
                           updatedAt := now } ∧
      r.goal.status = "active" ∧
      r.autoClosed = decide (goal.currentAmount + amount ≥ goal.targetAmount) ∧
      r.transaction.kind = "income" ∧
      r.transaction.amount = amount ∧
      r.contribution.goalId = goalId ∧
      r.contribution.transactionId = r.transaction.id ∧
      r.contribution.amount = amount ∧
      ((createContribution st householdId goalId amount sourceAccountId occurredAt
        description now nowDate noFail).2).transactions =
        st.transactions ++ [r.transaction] ∧
      ((createContribution st householdId goalId amount sourceAccountId occurredAt
        description now nowDate noFail).2).goalContributions =
        st.goalContributions ++ [r.contribution] ∧
      ((createContribution st householdId goalId amount sourceAccountId occurredAt
        description now nowDate noFail).2).goals.find? (fun g => g.id == goalId) =
        some g' ∧
      g'.currentAmount = goal.currentAmount + amount ∧
      (goal.targetAmount ≤ goal.currentAmount + amount →
        g'.status = "completed" ∧ g'.completedAt = some nowDate) ∧
      (goal.currentAmount + amount < goal.targetAmount →
        g'.status = "active" ∧ g'.completedAt = goal.completedAt) := by
  have hb : (goal.id == goalId) = true := by simpa using List.find?_some hg
  have hstat : (goal.status != "active") = false := by rw [hactive]; rfl
  have hneg : ¬ amount ≤ 0 := not_le.mpr hpos
  have hfind3 : (st.goals.map (fun g =>
      if g.id == goalId then
        { g with currentAmount := goal.currentAmount + amount, updatedAt := now }
      else g)).find? (fun g => g.id == goalId) =
      some { goal with
        currentAmount := goal.currentAmount + amount,
        updatedAt := now } := by
    rw [find?_map_if Goal (fun g => g.id == goalId)
      (fun g => { g with currentAmount := goal.currentAmount + amount, updatedAt := now })
      (fun a => rfl), hg]
    simp [hb]
    exact fun h => absurd (by simpa using hb) h
  simp only [createContribution, hg, hacct, hstat, Bool.false_eq_true, if_false,
    if_neg hneg, noFail, hfind3]
  by_cases hclose : goal.currentAmount + amount ≥ goal.targetAmount
  · refine ⟨_, { goal with
        currentAmount := goal.currentAmount + amount,
        updatedAt := now,
        status := "completed",
        completedAt := some nowDate },
      rfl, rfl, by rw [hactive], by simp [hclose], rfl, rfl, rfl, rfl, rfl,
      by simp [if_pos hclose], by simp [if_pos hclose], ?_, rfl,
      fun _ => ⟨rfl, rfl⟩, fun hlt => absurd hclose (not_le.mpr hlt)⟩
    simp only [if_pos hclose]
    rw [find?_map_if Goal (fun g => g.id == goalId)
      (fun g => { g with status := "completed", completedAt := some nowDate, updatedAt := now })
      (fun a => rfl), hfind3]
    simp [hb]
    exact fun h => absurd (by simpa using hb) h
  · refine ⟨_, { goal with
        currentAmount := goal.currentAmount + amount,
        updatedAt := now },
      rfl, rfl, by rw [hactive], by simp [hclose], rfl, rfl, rfl, rfl, rfl,
      by simp [if_neg hclose], by simp [if_neg hclose], ?_, rfl,
      fun hle => absurd hle hclose, fun _ => ⟨by rw [hactive], rfl⟩⟩
    simp only [if_neg hclose]
    exact hfind3

/-- Claim C2 witness: the amended theorem applied to concrete scenario A
(target 1000.00, current 900.00, contribution 100.00). -/
theorem contribution_posting_updates_goal_and_autocloses_witness :
    (storeA.goals.find? (fun g => g.id == 1) = some goalA) ∧
    (goalA.status = "active") ∧
    (storeA.accounts.find? (fun a => a.id == 2 && a.householdId == 1) = some accountA) ∧
    ((0 : Int) < 10000) ∧
    (∃ r g',
      (createContribution storeA 1 1 10000 2 none none 5 dateA noFail).1 = .ok r ∧
      r.goal = { goalA with currentAmount := goalA.currentAmount + 10000,
                            updatedAt := 5 } ∧
      r.goal.status = "active" ∧
      r.autoClosed = decide (goalA.currentAmount + 10000 ≥ goalA.targetAmount) ∧
      r.transaction.kind = "income" ∧
      r.transaction.amount = 10000 ∧
      r.contribution.goalId = 1 ∧
      r.contribution.transactionId = r.transaction.id ∧
      r.contribution.amount = 10000 ∧
      ((createContribution storeA 1 1 10000 2 none none 5 dateA noFail).2).transactions =
        storeA.transactions ++ [r.transaction] ∧
      ((createContribution storeA 1 1 10000 2 none none 5 dateA noFail).2).goalContributions =
        storeA.goalContributions ++ [r.contribution] ∧
      ((createContribution storeA 1 1 10000 2 none none 5 dateA noFail).2).goals.find?
        (fun g => g.id == 1) = some g' ∧
      g'.currentAmount = goalA.currentAmount + 10000 ∧
      (goalA.targetAmount ≤ goalA.currentAmount + 10000 →
        g'.status = "completed" ∧ g'.completedAt = some dateA) ∧
      (goalA.currentAmount + 10000 < goalA.targetAmount →
        g'.status = "active" ∧ g'.completedAt = goalA.completedAt)) :=
  ⟨by decide, rfl, by decide, by decide,
    contribution_posting_updates_goal_and_autocloses storeA 1 1 10000 2 none none 5
      dateA goalA accountA (by decide) rfl (by decide) (by decide)⟩

/-- Claim C6: a payment exceeding the obligation's outstanding balance is
rejected with the invalid-argument `ValidationError` before any write (the
store is returned unchanged: no LedgerEntry, no Payment link, obligation
untouched); a successful payment subtracts the amount from
`outstanding_amount`, which never drops below zero under the precondition,
and auto-closes the stored obligation exactly when the new outstanding
is `<= 0`. -/
theorem payment_posting_rejects_overpayment_and_autocloses
    (st : Store) (householdId obligationId : Nat) (amount : Int) (fromAccountId : Nat)
    (occurredAt : Option Nat) (description : Option String) (now : Nat)
    (nowDate : PyDate) (ob : Obligation) (acct : Account)
    (ho : st.obligations.find? (fun o => o.id == obligationId) = some ob)
    (hactive : ob.status = "active")
    (hacct : st.accounts.find?
      (fun a => a.id == fromAccountId && a.householdId == householdId) = some acct)
    (hpos : 0 < amount) :
    (ob.outstandingAmount < amount →
      createPayment st householdId obligationId amount fromAccountId occurredAt
        description now nowDate noFail =
      (.error (.validationError
        ("El monto del pago (" ++ centsToString amount ++
         ") no puede exceder el monto pendiente (" ++
         centsToString ob.outstandingAmount ++ ")")), st)) ∧
    (amount ≤ ob.outstandingAmount →
      ∃ r o',
        (createPayment st householdId obligationId amount fromAccountId occurredAt
          description now nowDate noFail).1 = .ok r ∧
        r.transaction.kind = "expense" ∧
        r.transaction.amount = amount ∧
        r.payment.obligationId = obligationId ∧
        r.payment.transactionId = r.transaction.id ∧
        r.payment.amount = amount ∧
        r.autoClosed = decide (ob.outstandingAmount - amount ≤ 0) ∧
        ((createPayment st householdId obligationId amount fromAccountId occurredAt
          description now nowDate noFail).2).transactions =
          st.transactions ++ [r.transaction] ∧
        ((createPayment st householdId obligationId amount fromAccountId occurredAt
          description now nowDate noFail).2).obligationPayments =
          st.obligationPayments ++ [r.payment] ∧
        ((createPayment st householdId obligationId amount fromAccountId occurredAt
          description now nowDate noFail).2).obligations.find?
          (fun o => o.id == obligationId) = some o' ∧
        o'.outstandingAmount = ob.outstandingAmount - amount ∧
        0 ≤ o'.outstandingAmount ∧
        (ob.outstandingAmount - amount ≤ 0 →
          o'.status = "completed" ∧ o'.completedAt = some nowDate) ∧
        (0 < ob.outstandingAmount - amount →
          o'.status = "active" ∧ o'.completedAt = ob.completedAt)) := by
  have hb : (ob.id == obligationId) = true := by simpa using List.find?_some ho
  have hstat : (ob.status != "active") = false := by rw [hactive]; rfl
  have hneg : ¬ amount ≤ 0 := not_le.mpr hpos
  constructor
  · intro hover
    simp only [createPayment, ho, hacct, hstat, Bool.false_eq_true, if_false,
      if_neg hneg, if_pos hover]
  · intro hle
    have hnover : ¬ amount > ob.outstandingAmount := not_lt.mpr hle
    have hfind3 : (st.obligations.map (fun o =>
        if o.id == obligationId then
          { o with outstandingAmount := ob.outstandingAmount - amount, updatedAt := now }
        else o)).find? (fun o => o.id == obligationId) =
        some { ob with
          outstandingAmount := ob.outstandingAmount - amount,
          updatedAt := now } := by
      rw [find?_map_if Obligation (fun o => o.id == obligationId)
        (fun o => { o with outstandingAmount := ob.outstandingAmount - amount, updatedAt := now })
        (fun a => rfl), ho]
      simp [hb]
      exact fun h => absurd (by simpa using hb) h
    simp only [createPayment, ho, hacct, hstat, Bool.false_eq_true, if_false,
      if_neg hneg, if_neg hnover, noFail, hfind3]
    by_cases hclose : ob.outstandingAmount - amount ≤ 0
    · refine ⟨_, { ob with
          outstandingAmount := ob.outstandingAmount - amount,
          updatedAt := now,
          status := "completed",
          completedAt := some nowDate },
        rfl, rfl, rfl, rfl, rfl, rfl, rfl, by rw [if_pos hclose],
        by rw [if_pos hclose], ?_, rfl, sub_nonneg.mpr hle,
        fun _ => ⟨rfl, rfl⟩, fun hlt => absurd hclose (not_le.mpr hlt)⟩
      simp only [if_pos hclose]
      rw [find?_map_if Obligation (fun o => o.id == obligationId)
        (fun o => { o with status := "completed", completedAt := some nowDate, updatedAt := now })
        (fun a => rfl), hfind3]
      simp [hb]
      exact fun h => absurd (by simpa using hb) h
    · refine ⟨_, { ob with
          outstandingAmount := ob.outstandingAmount - amount,
          updatedAt := now },
        rfl, rfl, rfl, rfl, rfl, rfl, rfl, by rw [if_neg hclose],
        by rw [if_neg hclose], ?_, rfl, sub_nonneg.mpr hle,
        fun hle' => absurd hle' hclose, fun _ => ⟨by rw [hactive], rfl⟩⟩
      simp only [if_neg hclose]
      exact hfind3

/-- Claim C6 witness: the theorem applied to concrete scenario B (total
500.00, outstanding 500.00, active): a 600.00 payment is rejected unwritten,
and a 500.00 payment closes the obligation at outstanding 0. -/
theorem payment_posting_rejects_overpayment_and_autocloses_witness :
    (storeB.obligations.find? (fun o => o.id == 3) = some obligationB) ∧
    (obligationB.status = "active") ∧
    (storeB.accounts.find? (fun a => a.id == 2 && a.householdId == 1) = some accountA) ∧
    ((0 : Int) < 60000) ∧ (obligationB.outstandingAmount < 60000) ∧
    (createPayment storeB 1 3 60000 2 none none 5 dateA noFail =
      (.error (.validationError
        ("El monto del pago (" ++ centsToString 60000 ++
         ") no puede exceder el monto pendiente (" ++
         centsToString obligationB.outstandingAmount ++ ")")), storeB)) ∧
    ((0 : Int) < 50000) ∧ ((50000 : Int) ≤ obligationB.outstandingAmount) ∧
    (∃ r o',
      (createPayment storeB 1 3 50000 2 none none 5 dateA noFail).1 = .ok r ∧
      r.transaction.kind = "expense" ∧
      r.transaction.amount = 50000 ∧
      r.payment.obligationId = 3 ∧
      r.payment.transactionId = r.transaction.id ∧
      r.payment.amount = 50000 ∧
      r.autoClosed = decide (obligationB.outstandingAmount - 50000 ≤ 0) ∧
      ((createPayment storeB 1 3 50000 2 none none 5 dateA noFail).2).transactions =
        storeB.transactions ++ [r.transaction] ∧
      ((createPayment storeB 1 3 50000 2 none none 5 dateA noFail).2).obligationPayments =
        storeB.obligationPayments ++ [r.payment] ∧
      ((createPayment storeB 1 3 50000 2 none none 5 dateA noFail).2).obligations.find?
        (fun o => o.id == 3) = some o' ∧
      o'.outstandingAmount = obligationB.outstandingAmount - 50000 ∧
      0 ≤ o'.outstandingAmount ∧
      (obligationB.outstandingAmount - 50000 ≤ 0 →
        o'.status = "completed" ∧ o'.completedAt = some dateA) ∧
      (0 < obligationB.outstandingAmount - 50000 →
        o'.status = "active" ∧ o'.completedAt = obligationB.completedAt)) :=
  ⟨by decide, rfl, by decide, by decide, by decide,
    (payment_posting_rejects_overpayment_and_autocloses storeB 1 3 60000 2 none none
      5 dateA obligationB accountA (by decide) rfl (by decide) (by decide)).1 (by decide),
    by decide, by decide,
    (payment_posting_rejects_overpayment_and_autocloses storeB 1 3 50000 2 none none
      5 dateA obligationB accountA (by decide) rfl (by decide) (by decide)).2 (by decide)⟩

/-- Claim C7 (amended): every contribution-posting precondition failure is
raised before any write (the store is returned unchanged): nonexistent goal →
`NotFoundError` (404), goal not active → `ValidationError` (422), account not
in the household → `NotFoundError` (404), non-positive amount →
`ValidationError` (422).  `NotFound` is distinguishable from `ValidationError`,
but the invalid-state and invalid-argument failures share one observable error
kind (`ValidationError`, status 422, same problem type), distinguishable only
by their free-text detail. -/
theorem contribution_preconditions_fail_fast
    (st : Store) (householdId goalId : Nat) (amount : Int) (sourceAccountId : Nat)
    (occurredAt : Option Nat) (description : Option String) (now : Nat)
    (nowDate : PyDate) (fail : FailureSpec) :
    (st.goals.find? (fun g => g.id == goalId) = none →
      createContribution st householdId goalId amount sourceAccountId occurredAt
        description now nowDate fail =
      (.error (.notFoundError "Meta" (toString goalId)), st)) ∧
    (∀ goal, st.goals.find? (fun g => g.id == goalId) = some goal →
      goal.status ≠ "active" →
      createContribution st householdId goalId amount sourceAccountId occurredAt
        description now nowDate fail =
      (.error (.validationError "La meta debe estar activa para recibir aportes"), st)) ∧
    (∀ goal, st.goals.find? (fun g => g.id == goalId) = some goal →
      goal.status = "active" →
      st.accounts.find?
        (fun a => a.id == sourceAccountId && a.householdId == householdId) = none →
      createContribution st householdId goalId amount sourceAccountId occurredAt
        description now nowDate fail =
      (.error (.notFoundError "Cuenta" (toString sourceAccountId)), st)) ∧
    (∀ goal acct, st.goals.find? (fun g => g.id == goalId) = some goal →
      goal.status = "active" →
      st.accounts.find?
        (fun a => a.id == sourceAccountId && a.householdId == householdId) = some acct →
      amount ≤ 0 →
      createContribution st householdId goalId amount sourceAccountId occurredAt
        description now nowDate fail =
      (.error (.validationError "El monto del aporte debe ser positivo"), st)) ∧
    (∀ r i d, (ApiError.notFoundError r i).kind ≠ (ApiError.validationError d).kind) := by
  refine ⟨?_, ?_, ?_, ?_, ?_⟩
  · intro hnone
    simp only [createContribution, hnone]
  · intro goal hg hstat
    have hbne : (goal.status != "active") = true := by
      simpa using hstat
    simp only [createContribution, hg, hbne, if_true]
  · intro goal hg hstat hnone
    have hbne : (goal.status != "active") = false := by rw [hstat]; rfl
    simp only [createContribution, hg, hbne, Bool.false_eq_true, if_false, hnone]
  · intro goal acct hg hstat hacct hle
    have hbne : (goal.status != "active") = false := by rw [hstat]; rfl
    simp only [createContribution, hg, hbne, Bool.false_eq_true, if_false, hacct,
      if_pos hle]
  · intro r i d
    simp [ApiError.kind]

/-- Claim C7 witness: the amended theorem applied at concrete inputs — a
missing goal, the completed (inactive) goal, a missing account, and a
non-positive amount, each rejected with the stated error and an unchanged
store. -/
theorem contribution_preconditions_fail_fast_witness :
    (storeA.goals.find? (fun g => g.id == 77) = none) ∧
    (createContribution storeA 1 77 10000 2 none none 5 dateA noFail =
      (.error (.notFoundError "Meta" (toString 77)), storeA)) ∧
    (storeInactive.goals.find? (fun g => g.id == 5) = some goalInactive) ∧
    (goalInactive.status ≠ "active") ∧
    (createContribution storeInactive 1 5 10000 2 none none 5 dateA noFail =
      (.error (.validationError "La meta debe estar activa para recibir aportes"),
       storeInactive)) ∧
    (storeA.accounts.find? (fun a => a.id == 9 && a.householdId == 1) = none) ∧
    (createContribution storeA 1 1 10000 9 none none 5 dateA noFail =
      (.error (.notFoundError "Cuenta" (toString 9)), storeA)) ∧
    ((-100 : Int) ≤ 0) ∧
    (createContribution storeA 1 1 (-100) 2 none none 5 dateA noFail =
      (.error (.validationError "El monto del aporte debe ser positivo"), storeA)) :=
  ⟨by decide,
    (contribution_preconditions_fail_fast storeA 1 77 10000 2 none none 5 dateA
      noFail).1 (by decide),
    by decide, by decide,
    (contribution_preconditions_fail_fast storeInactive 1 5 10000 2 none none 5 dateA
      noFail).2.1 goalInactive (by decide) (by decide),
    by decide,
    (contribution_preconditions_fail_fast storeA 1 1 10000 9 none none 5 dateA
      noFail).2.2.1 goalA (by decide) rfl (by decide),
    by decide,
    (contribution_preconditions_fail_fast storeA 1 1 (-100) 2 none none 5 dateA
      noFail).2.2.2.1 goalA accountA (by decide) rfl (by decide) (by decide)⟩

/-- Claim C7 (counterexample): the inactive-goal failure and the non-positive-
amount failure are not distinguishable error kinds — both are raised as the
same `ValidationError` class with status 422 and the same Problem+JSON type
and title, differing only in the free-text detail. -/
theorem invalid_state_and_invalid_argument_share_error_kind :
    (createContribution storeInactive 1 5 10000 2 none none 5 dateA noFail).1 =
      .error (.validationError "La meta debe estar activa para recibir aportes") ∧
    (createContribution storeA 1 1 (-100) 2 none none 5 dateA noFail).1 =
      .error (.validationError "El monto del aporte debe ser positivo") ∧
    (ApiError.validationError "La meta debe estar activa para recibir aportes").kind =
      (ApiError.validationError "El monto del aporte debe ser positivo").kind := by
  decide

/-- Claim C9: a successful roll-forward of a completed recurring goal or
obligation creates exactly one new item copying the descriptive fields (name,
priority, description, recurrence pattern — and the target/total amount),
resets progress (goal: `current_amount = 0`; obligation:
`outstanding_amount = total_amount`), sets status `active` and the computed
next target/due date; the store is the old store with the one new row
appended, so the source item and every other table are left unchanged. -/
theorem rollforward_creates_reset_copy_and_leaves_source_untouched
    (st : Store) (today : PyDate) (now : Nat) :
    (∀ goalId goal pat nd,
      st.goals.find? (fun g => g.id == goalId) = some goal →
      goal.isRecurring = true →
      goal.status = "completed" →
      goal.recurrencePattern = some pat →
      calculateNextDate (goal.targetDate.getD today) pat goal.completedAt = .ok nd →
      rolloverGoal st goalId today now =
        (.ok { newGoal := {
                 id := st.nextId, householdId := goal.householdId,
                 name := goal.name, targetAmount := goal.targetAmount,
                 currentAmount := 0, targetDate := some nd,
                 description := goal.description, priority := goal.priority,
                 isRecurring := true, recurrencePattern := some pat,
                 status := "active", completedAt := none, createdAt := now,
                 updatedAt := now },
               nextTargetDate := nd, pattern := pat },
         { st with
           goals := st.goals ++
             [{
                id := st.nextId, householdId := goal.householdId,
                name := goal.name, targetAmount := goal.targetAmount,
                currentAmount := 0, targetDate := some nd,
                description := goal.description, priority := goal.priority,
                isRecurring := true, recurrencePattern := some pat,
                status := "active", completedAt := none, createdAt := now,
                updatedAt := now }],
           nextId := st.nextId + 1 })) ∧
    (∀ obligationId ob pat nd,
      st.obligations.find? (fun o => o.id == obligationId) = some ob →
      ob.isRecurring = true →
      ob.status = "completed" →
      ob.recurrencePattern = some pat →
      calculateNextDate (ob.dueDate.getD today) pat ob.completedAt = .ok nd →
      renewObligation st obligationId today now =
        (.ok { newObligation := {
                 id := st.nextId, householdId := ob.householdId,
                 name := ob.name, totalAmount := ob.totalAmount,
                 outstandingAmount := ob.totalAmount, dueDate := some nd,
                 description := ob.description, priority := ob.priority,
                 creditor := ob.creditor, isRecurring := true,
                 recurrencePattern := some pat, status := "active",
                 completedAt := none, createdAt := now, updatedAt := now },
               nextDueDate := nd, pattern := pat },
         { st with
           obligations := st.obligations ++
             [{
                id := st.nextId, householdId := ob.householdId,
                name := ob.name, totalAmount := ob.totalAmount,
                outstandingAmount := ob.totalAmount, dueDate := some nd,
                description := ob.description, priority := ob.priority,
                creditor := ob.creditor, isRecurring := true,
                recurrencePattern := some pat, status := "active",
                completedAt := none, createdAt := now, updatedAt := now }],
           nextId := st.nextId + 1 })) := by
  constructor
  · intro goalId goal pat nd hg hrec hcomp hpat hnext
    have h1 : (!goal.isRecurring) = false := by rw [hrec]; rfl
    have h2 : (goal.status != "completed") = false := by rw [hcomp]; rfl
    simp only [rolloverGoal, hg, h1, h2, Bool.false_eq_true, if_false, hpat, hnext]
  · intro obligationId ob pat nd ho hrec hcomp hpat hnext
    have h1 : (!ob.isRecurring) = false := by rw [hrec]; rfl
    have h2 : (ob.status != "completed") = false := by rw [hcomp]; rfl
    simp only [renewObligation, ho, h1, h2, Bool.false_eq_true, if_false, hpat, hnext]

/-- Claim C9 witness: the theorem applied to a concrete completed recurring
goal (monthly, completed on 2024-01-20 → next target 2024-02-20) and a
concrete completed recurring obligation (weekly, completed on 2024-01-12 →
next due 2024-01-19). -/
theorem rollforward_creates_reset_copy_witness :
    (storeR.goals.find? (fun g => g.id == 8) = some goalR) ∧
    (goalR.isRecurring = true) ∧ (goalR.status = "completed") ∧
    (goalR.recurrencePattern = some "monthly") ∧
    (calculateNextDate (goalR.targetDate.getD dateA) "monthly" goalR.completedAt =
      .ok ⟨2024, 2, 20⟩) ∧
    (rolloverGoal storeR 8 dateA 5 =
      (.ok { newGoal := {
               id := storeR.nextId, householdId := goalR.householdId,
               name := goalR.name, targetAmount := goalR.targetAmount,
               currentAmount := 0, targetDate := some ⟨2024, 2, 20⟩,
               description := goalR.description, priority := goalR.priority,
               isRecurring := true, recurrencePattern := some "monthly",
               status := "active", completedAt := none, createdAt := 5,
               updatedAt := 5 },
             nextTargetDate := ⟨2024, 2, 20⟩, pattern := "monthly" },
       { storeR with
         goals := storeR.goals ++
           [{
              id := storeR.nextId, householdId := goalR.householdId,
              name := goalR.name, targetAmount := goalR.targetAmount,
              currentAmount := 0, targetDate := some ⟨2024, 2, 20⟩,
              description := goalR.description, priority := goalR.priority,
              isRecurring := true, recurrencePattern := some "monthly",
              status := "active", completedAt := none, createdAt := 5,
              updatedAt := 5 }],
         nextId := storeR.nextId + 1 })) ∧
    (storeR.obligations.find? (fun o => o.id == 9) = some obligationR) ∧
    (renewObligation storeR 9 dateA 5 =
      (.ok { newObligation := {
               id := storeR.nextId, householdId := obligationR.householdId,
               name := obligationR.name, totalAmount := obligationR.totalAmount,
               outstandingAmount := obligationR.totalAmount, dueDate := some ⟨2024, 1, 19⟩,
               description := obligationR.description, priority := obligationR.priority,
               creditor := obligationR.creditor, isRecurring := true,
               recurrencePattern := some "weekly", status := "active",
               completedAt := none, createdAt := 5, updatedAt := 5 },
             nextDueDate := ⟨2024, 1, 19⟩, pattern := "weekly" },
       { storeR with
         obligations := storeR.obligations ++
           [{
              id := storeR.nextId, householdId := obligationR.householdId,
              name := obligationR.name, totalAmount := obligationR.totalAmount,
              outstandingAmount := obligationR.totalAmount, dueDate := some ⟨2024, 1, 19⟩,
              description := obligationR.description, priority := obligationR.priority,
              creditor := obligationR.creditor, isRecurring := true,
              recurrencePattern := some "weekly", status := "active",
              completedAt := none, createdAt := 5, updatedAt := 5 }],
         nextId := storeR.nextId + 1 })) :=
  ⟨by decide, rfl, rfl, rfl, by decide,
    (rollforward_creates_reset_copy_and_leaves_source_untouched storeR dateA 5).1
      8 goalR "monthly" ⟨2024, 2, 20⟩ (by decide) rfl rfl rfl (by decide),
    by decide,
    (rollforward_creates_reset_copy_and_leaves_source_untouched storeR dateA 5).2
      9 obligationR "weekly" ⟨2024, 1, 19⟩ (by decide) rfl rfl rfl (by decide)⟩

/-- Claim C8: the next-date computation works from the base date — the
item's `completed_at` when present, else the original target/due date, else
today — and yields: daily = base + 1 day; weekly = base + 7 days; monthly =
same day-of-month in the next calendar month, rolling December over to
January of the next year; quarterly = base + 90 days; yearly = same
month/day with year + 1; any unsupported pattern fails with the
invalid-argument `ValidationError`.  (The monthly/yearly equations hold
whenever the target day exists; the nonexistent-day behaviour is the subject
of claim C10.) -/
theorem next_date_follows_recurrence_pattern
    (targetDate : Option PyDate) (today : PyDate) (completedAt : Option PyDate)
    (cur base : PyDate)
    (hcur : cur = targetDate.getD today)
    (hbase : base = completedAt.getD cur) :
    calculateNextDate cur "daily" completedAt = .ok (addDays base 1) ∧
    calculateNextDate cur "weekly" completedAt = .ok (addDays base 7) ∧
    calculateNextDate cur "quarterly" completedAt = .ok (addDays base 90) ∧
    (base.month = 12 → 1 ≤ base.day → base.day ≤ 31 →
      calculateNextDate cur "monthly" completedAt =
        .ok ⟨base.year + 1, 1, base.day⟩) ∧
    (1 ≤ base.month → base.month < 12 → 1 ≤ base.day →
      base.day ≤ daysInMonth base.year (base.month + 1) →
      calculateNextDate cur "monthly" completedAt =
        .ok ⟨base.year, base.month + 1, base.day⟩) ∧
    (1 ≤ base.month → base.month ≤ 12 → 1 ≤ base.day →
      base.day ≤ daysInMonth (base.year + 1) base.month →
      calculateNextDate cur "yearly" completedAt =
        .ok ⟨base.year + 1, base.month, base.day⟩) ∧
    (∀ p : String, p ≠ "daily" → p ≠ "weekly" → p ≠ "monthly" → p ≠ "quarterly" →
      p ≠ "yearly" →
      calculateNextDate cur p completedAt =
        .error (.validationError ("Patrón de recurrencia no válido: " ++ p))) := by
  subst hcur
  subst hbase
  refine ⟨by simp [calculateNextDate], by simp [calculateNextDate],
    by simp [calculateNextDate], ?_, ?_, ?_, ?_⟩
  · intro h12 hge1 hle31
    simp [calculateNextDate, h12, dateReplace, daysInMonth, hge1, hle31]
  · intro hmge1 hmlt12 hge1 hled
    have h12 : ((completedAt.getD (targetDate.getD today)).month == 12) = false := by
      simp
      omega
    simp [calculateNextDate, h12, dateReplace, hmge1, hge1, hled]
    omega
  · intro hmge1 hmle12 hge1 hled
    simp [calculateNextDate, dateReplace, hmge1, hmle12, hge1, hled]
  · intro p h1 h2 h3 h4 h5
    simp [calculateNextDate, h1, h2, h3, h4, h5]

/-- Claim C8 witness: the theorem applied with target date 2024-01-15 and
completion date 2024-12-31 (base = completed_at): daily, weekly and quarterly
add fixed days, the December monthly roll advances to 2025-01-31, and pattern
"hourly" is rejected with `ValidationError`. -/
theorem next_date_follows_recurrence_pattern_witness :
    calculateNextDate ⟨2024, 1, 15⟩ "daily" (some ⟨2024, 12, 31⟩) =
      .ok (addDays ⟨2024, 12, 31⟩ 1) ∧
    calculateNextDate ⟨2024, 1, 15⟩ "weekly" (some ⟨2024, 12, 31⟩) =
      .ok (addDays ⟨2024, 12, 31⟩ 7) ∧
    calculateNextDate ⟨2024, 1, 15⟩ "quarterly" (some ⟨2024, 12, 31⟩) =
      .ok (addDays ⟨2024, 12, 31⟩ 90) ∧
    calculateNextDate ⟨2024, 1, 15⟩ "monthly" (some ⟨2024, 12, 31⟩) =
      .ok ⟨2025, 1, 31⟩ ∧
    calculateNextDate ⟨2024, 1, 15⟩ "yearly" (some ⟨2024, 6, 15⟩) =
      .ok ⟨2025, 6, 15⟩ ∧
    calculateNextDate ⟨2024, 1, 15⟩ "hourly" (some ⟨2024, 12, 31⟩) =
      .error (.validationError ("Patrón de recurrencia no válido: " ++ "hourly")) := by
  refine ⟨?_, ?_, ?_, ?_, ?_, ?_⟩
  · exact (next_date_follows_recurrence_pattern (some ⟨2024, 1, 15⟩) ⟨2024, 3, 15⟩
      (some ⟨2024, 12, 31⟩) _ _ rfl rfl).1
  · exact (next_date_follows_recurrence_pattern (some ⟨2024, 1, 15⟩) ⟨2024, 3, 15⟩
      (some ⟨2024, 12, 31⟩) _ _ rfl rfl).2.1
  · exact (next_date_follows_recurrence_pattern (some ⟨2024, 1, 15⟩) ⟨2024, 3, 15⟩
      (some ⟨2024, 12, 31⟩) _ _ rfl rfl).2.2.1
  · exact (next_date_follows_recurrence_pattern (some ⟨2024, 1, 15⟩) ⟨2024, 3, 15⟩
      (some ⟨2024, 12, 31⟩) _ _ rfl rfl).2.2.2.1 (by decide) (by decide) (by decide)
  · exact (next_date_follows_recurrence_pattern (some ⟨2024, 1, 15⟩) ⟨2024, 3, 15⟩
      (some ⟨2024, 6, 15⟩) _ _ rfl rfl).2.2.2.2.2.1 (by decide) (by decide)
      (by decide) (by decide)
  · exact (next_date_follows_recurrence_pattern (some ⟨2024, 1, 15⟩) ⟨2024, 3, 15⟩
      (some ⟨2024, 12, 31⟩) _ _ rfl rfl).2.2.2.2.2.2 "hourly" (by decide) (by decide)
      (by decide) (by decide) (by decide)

/-- The hex rendering of one 32-bit word has eight characters. -/
theorem word32Hex_length (w : Nat) : (word32Hex w).length = 8 := rfl

/-- Every fingerprint is a 64-character hex digest. -/
theorem hashRequestBody_length (b : RequestBody) : (hashRequestBody b).length = 64 := by
  simp [hashRequestBody, sha256HexOfBytes, String.length_append, word32Hex_length]

/-- Claim C4: when a record is stored under `(key, principal, scope)` and a
later check arrives with a body whose fingerprint differs from the stored
fingerprint, the check raises `IdempotencyError(key)` — it does not return a
cached response. -/
theorem check_with_conflicting_fingerprint_raises
    (st : Store) (key : String) (userId householdId : Nat) (body : RequestBody)
    (stored : IdempotencyRecord)
    (hrec : st.idempotencyRequests.find?
      (fun r => r.key == key && r.userId == userId && r.householdId == householdId) =
      some stored)
    (hhash : stored.requestHash ≠ hashRequestBody body) :
    checkIdempotency st key userId householdId body = .error (.idempotencyError key) := by
  have hbne : (stored.requestHash != hashRequestBody body) = true := by simpa using hhash
  simp only [checkIdempotency, hrec, hbne, if_true]

/-- Claim C4 witness: the theorem applied to a store holding a record whose
stored fingerprint (`"different-hash"`, 14 characters) cannot equal the
64-character fingerprint of the incoming body. -/
theorem check_with_conflicting_fingerprint_raises_witness :
    (storeC.idempotencyRequests.find?
      (fun r => r.key == "kC" && r.userId == 7 && r.householdId == 1) = some recC) ∧
    (recC.requestHash ≠ hashRequestBody bodyC) ∧
    (checkIdempotency storeC "kC" 7 1 bodyC = .error (.idempotencyError "kC")) := by
  have hneq : recC.requestHash ≠ hashRequestBody bodyC := by
    intro h
    have hl := congrArg String.length h
    rw [hashRequestBody_length] at hl
    exact absurd hl (by decide)
  exact ⟨by decide, hneq,
    check_with_conflicting_fingerprint_raises storeC "kC" 7 1 bodyC recC
      (by decide) hneq⟩

/-- Claim C3: every request to the guarded contribution endpoint fails with
the catch-all `HTTPException(500, "Error creando aporte")` and leaves the
store unchanged: `_hash_request_body(request.dict())` raises `TypeError` on
the `UUID` (or `datetime`) field value before the idempotency lookup, and
even past that the `str`-typed amount would raise `TypeError` in the posting
service — so no request ever completes the check as fresh, posts, or records,
and the fresh-then-replay flow the claim describes is unreachable in the
source. -/
theorem router_contribution_always_500
    (st : Store) (key : String) (userId householdId goalId : Nat)
    (req : ContribRequest) (now : Nat) (nowDate : PyDate) (fail : FailureSpec) :
    routerCreateContribution st key userId householdId goalId req now nowDate fail =
      (.error (.httpException 500 "Error creando aporte"), st) := by
  rcases req with ⟨amount, src, occ, desc⟩
  cases occ <;> cases desc <;> rfl

/-- Claim C3 witness: the endpoint theorem applied at the concrete scenario-A
store, key and request: the request that the replay protocol was meant to
guard is answered with the 500 catch-all. -/
theorem router_contribution_always_500_witness :
    routerCreateContribution storeA "k1" 7 1 1 reqA 5 dateA noFail =
      (.error (.httpException 500 "Error creando aporte"), storeA) :=
  router_contribution_always_500 storeA "k1" 7 1 1 reqA 5 dateA noFail

/-- Every 32-bit truncation is below `2 ^ 32`. -/
theorem w32_lt (n : Nat) : w32 n < 4294967296 := Nat.mod_lt _ (by norm_num)

/-- Adding registers into the state always yields 32-bit words. -/
theorem addState_bounded (hv : Hash8) (r : Regs) : (addState hv r).Bounded :=
  ⟨w32_lt _, w32_lt _, w32_lt _, w32_lt _, w32_lt _, w32_lt _, w32_lt _, w32_lt _⟩

/-- One compression step always outputs 32-bit words. -/
theorem compressBlock_bounded (hv : Hash8) (b : List Nat) :
    (compressBlock hv b).Bounded :=
  addState_bounded hv _

/-- Folding compression over any block list preserves 32-bit boundedness. -/
theorem foldl_compressBlock_bounded (blocks : List (List Nat)) :
    ∀ hv : Hash8, hv.Bounded → (blocks.foldl compressBlock hv).Bounded := by
  induction blocks with
  | nil => exact fun _ h => h
  | cons b bs ih =>
    intro hv _
    rw [List.foldl_cons]
    exact ih (compressBlock hv b) (compressBlock_bounded hv b)

/-- The SHA-256 hash state of any message consists of 32-bit words. -/
theorem sha256Words_bounded (msg : List Nat) : (sha256Words msg).Bounded :=
  foldl_compressBlock_bounded _ shaH0
    (by refine ⟨?_, ?_, ?_, ?_, ?_, ?_, ?_, ?_⟩ <;> norm_num [shaH0])

/-- Two hash states with equal words are equal. -/
theorem hash8_eq {x y : Hash8} (e0 : x.h0 = y.h0) (e1 : x.h1 = y.h1)
    (e2 : x.h2 = y.h2) (e3 : x.h3 = y.h3) (e4 : x.h4 = y.h4) (e5 : x.h5 = y.h5)
    (e6 : x.h6 = y.h6) (e7 : x.h7 = y.h7) : x = y := by
  cases x
  cases y
  simp_all

/-- Equal hash states render to equal hex digests. -/
theorem sha256HexOfBytes_congr {m1 m2 : List Nat}
    (h : sha256Words m1 = sha256Words m2) :
    sha256HexOfBytes m1 = sha256HexOfBytes m2 := by
  unfold sha256HexOfBytes
  rw [h]

/-- The body family is injective in its index. -/
theorem bodyOfIndex_injEq {n m : Nat} (h : bodyOfIndex n = bodyOfIndex m) :
    n = m := by
  simp only [bodyOfIndex, List.cons.injEq, Prod.mk.injEq, JValue.str.injEq,
    and_true, true_and] at h
  have hdata := congrArg String.data h
  have hlen := congrArg List.length hdata
  simpa using hlen

/-- Because digests live in the finite space of eight 32-bit words while
bodies are unbounded, some two distinct single-key bodies — differing only in
the value stored under `"k"` — share a fingerprint. -/
theorem fingerprint_collision_exists :
    ∃ v w : JValue, v ≠ w ∧
      hashRequestBody [("k", v)] = hashRequestBody [("k", w)] := by
  obtain ⟨n, m, hnm, hF⟩ := Finite.exists_ne_map_eq_of_infinite
    (fun n : Nat =>
      ((⟨(sha256Words (strBytes (canonicalJson (bodyOfIndex n)))).h0,
         (sha256Words_bounded _).1⟩ : Fin 4294967296),
       (⟨(sha256Words (strBytes (canonicalJson (bodyOfIndex n)))).h1,
         (sha256Words_bounded _).2.1⟩ : Fin 4294967296),
       (⟨(sha256Words (strBytes (canonicalJson (bodyOfIndex n)))).h2,
         (sha256Words_bounded _).2.2.1⟩ : Fin 4294967296),
       (⟨(sha256Words (strBytes (canonicalJson (bodyOfIndex n)))).h3,
         (sha256Words_bounded _).2.2.2.1⟩ : Fin 4294967296),
       (⟨(sha256Words (strBytes (canonicalJson (bodyOfIndex n)))).h4,
         (sha256Words_bounded _).2.2.2.2.1⟩ : Fin 4294967296),
       (⟨(sha256Words (strBytes (canonicalJson (bodyOfIndex n)))).h5,
         (sha256Words_bounded _).2.2.2.2.2.1⟩ : Fin 4294967296),
       (⟨(sha256Words (strBytes (canonicalJson (bodyOfIndex n)))).h6,
         (sha256Words_bounded _).2.2.2.2.2.2.1⟩ : Fin 4294967296),
       (⟨(sha256Words (strBytes (canonicalJson (bodyOfIndex n)))).h7,
         (sha256Words_bounded _).2.2.2.2.2.2.2⟩ : Fin 4294967296)))
  simp only [Prod.mk.injEq, Fin.mk.injEq] at hF
  obtain ⟨e0, e1, e2, e3, e4, e5, e6, e7⟩ := hF
  refine ⟨JValue.str (String.mk (List.replicate n 'a')),
    JValue.str (String.mk (List.replicate m 'a')), ?_, ?_⟩
  · intro h
    exact hnm (bodyOfIndex_injEq (by simpa [bodyOfIndex] using h))
  · exact sha256HexOfBytes_congr (hash8_eq e0 e1 e2 e3 e4 e5 e6 e7)

/-- Canonicalization is insensitive to field order: permuted bodies with
duplicate-free keys serialize identically (the items are re-sorted by key,
and a sorted permutation with distinct keys is unique). -/
theorem canonicalJson_perm {a b : RequestBody} (hab : a.Perm b)
    (hnd : (a.map Prod.fst).Nodup) : canonicalJson a = canonicalJson b := by
  have hsa := List.sorted_insertionSort keyLe a
  have hsb := List.sorted_insertionSort keyLe b
  have hpa := List.perm_insertionSort keyLe a
  have hpb := List.perm_insertionSort keyLe b
  have hperm : (a.insertionSort keyLe).Perm (b.insertionSort keyLe) :=
    hpa.trans (hab.trans hpb.symm)
  have hnda : ((a.insertionSort keyLe).map Prod.fst).Nodup :=
    ((hpa.map Prod.fst).nodup_iff).mpr hnd
  have hndb : ((b.insertionSort keyLe).map Prod.fst).Nodup :=
    ((hpb.map Prod.fst).nodup_iff).mpr (((hab.map Prod.fst).nodup_iff).mp hnd)
  have hlta : List.Sorted keyLt (a.insertionSort keyLe) := by
    have hne := (List.pairwise_map).mp hnda
    exact (hsa.and hne).imp (fun h => lt_of_le_of_ne h.1 h.2)
  have hltb : List.Sorted keyLt (b.insertionSort keyLe) := by
    have hne := (List.pairwise_map).mp hndb
    exact (hsb.and hne).imp (fun h => lt_of_le_of_ne h.1 h.2)
  have heq := List.eq_of_perm_of_sorted hperm hlta hltb
  unfold canonicalJson
  rw [heq]

/-- Permuted bodies with duplicate-free keys hash identically. -/
theorem hashRequestBody_perm {a b : RequestBody} (hab : a.Perm b)
    (hnd : (a.map Prod.fst).Nodup) : hashRequestBody a = hashRequestBody b := by
  unfold hashRequestBody
  rw [canonicalJson_perm hab hnd]

/-- Claim C5 (counterexample): strict value-sensitivity is false — it is not
the case that every two bodies with the same keys but differing in a value
have different fingerprints, because fingerprints are 256-bit digests of an
unbounded input space. -/
theorem fingerprint_not_value_sensitive :
    ¬ (∀ a b : RequestBody, a.map Prod.fst = b.map Prod.fst → a ≠ b →
        hashRequestBody a ≠ hashRequestBody b) := by
  intro hsens
  obtain ⟨v, w, hvw, hcol⟩ := fingerprint_collision_exists
  exact hsens [("k", v)] [("k", w)] rfl (by simp [hvw]) hcol

/-- Claim C5 (amended): bodies equal as key-value maps and differing only in
field order always hash identically (stability); but strict value-sensitivity
cannot hold universally — there exist two bodies with the same single key and
different values whose SHA-256 fingerprints coincide, so distinct values
guarantee distinct fingerprints only up to hash collisions. -/
theorem fingerprint_stable_under_key_order_not_injective :
    (∀ a b : RequestBody, a.Perm b → (a.map Prod.fst).Nodup →
      hashRequestBody a = hashRequestBody b) ∧
    (∃ v w : JValue, v ≠ w ∧
      hashRequestBody [("k", v)] = hashRequestBody [("k", w)]) :=
  ⟨fun _ _ hab hnd => hashRequestBody_perm hab hnd, fingerprint_collision_exists⟩

/-- Claim C5 witness: the stability half applied to two concrete two-field
bodies that differ only in field order. -/
theorem fingerprint_stable_under_key_order_witness :
    hashRequestBody [("b", .num 2), ("a", .num 1)] =
      hashRequestBody [("a", .num 1), ("b", .num 2)] :=
  fingerprint_stable_under_key_order_not_injective.1
    [("b", .num 2), ("a", .num 1)] [("a", .num 1), ("b", .num 2)]
    (List.Perm.swap ("a", JValue.num 1) ("b", JValue.num 2) []) (by decide)

end FinApp
